import Mathlib

/-!
Verification development for the liquidity-provision ABCI rounds module
(packages/valory/skills/liquidity_provision/rounds.py).

The rounds module defines an Event enumeration, a PeriodState with strict and
defaulted accessors over a replicated key-value store, three payload-collecting
rounds (transaction-hash base round, strategy-evaluation round, sleep round),
three degenerate terminal rounds, and a static FSM (transition table, initial
round, final states, event timeouts).

The generic collect-until-threshold machinery, the payload classes and the
database primitives live in the abstract_round_abci base package, which is not
part of this repository's sources; those are modelled from the specification
(each such definition carries a doc comment saying so). Everything else is a
direct translation of rounds.py.
-/

/-- Event enumeration for the liquidity provision demo (rounds.py, class Event). -/
inductive Event where
  | DONE
  | DONE_ENTER
  | DONE_EXIT
  | DONE_SWAP_BACK
  | EXIT
  | ROUND_TIMEOUT
  | NO_MAJORITY
  | RESET_TIMEOUT
deriving DecidableEq, Fintype

/-- Modelled from the spec: the StrategyType enumeration of the payloads module
(not under src/); the wire shape section fixes the action strings as
wait, enter, exit and swap_back. -/
inductive StrategyType where
  | WAIT
  | ENTER
  | EXIT
  | SWAP_BACK
deriving DecidableEq

/-- Modelled from the spec: the string value carried by each StrategyType member. -/
def StrategyType.value : StrategyType → String
  | .WAIT => "wait"
  | .ENTER => "enter"
  | .EXIT => "exit"
  | .SWAP_BACK => "swap_back"

/-- Modelled from the spec: a strategy payload body, an object with at least an
action field; the remaining fields are opaque key-value pairs. -/
structure Strategy where
  action : String
  others : List (String × String)
deriving DecidableEq

/-- Values stored in the replicated key-value store: strings, strategy objects,
collections mapping participants to strategy payload bodies, collections mapping
participants to transaction-hash payload bodies (JSON strings), and the Python
None value returned by defaulted access. -/
inductive Val where
  | str (s : String)
  | strategy (d : Strategy)
  | strategyCollection (c : List (String × Strategy))
  | txCollection (c : List (String × String))
  | noneV
deriving DecidableEq

/-- Modelled from the spec: lookup in the replicated key-value store, keys
compared for string equality, first binding wins. -/
def dbLookup (key : String) : List (String × Val) → Option Val
  | [] => none
  | (k, v) :: rest => if k = key then some v else dbLookup key rest

/-- Modelled from the spec: strict store access, get(key) fails with KeyNotFound
when the key is absent. -/
def get_strict (db : List (String × Val)) (key : String) : Except String Val :=
  match dbLookup key db with
  | some v => Except.ok v
  | none => Except.error key

/-- Modelled from the spec: defaulted store access, returning the default when
the key is absent. -/
def getWithDefault (db : List (String × Val)) (key : String) (dflt : Val) : Val :=
  match dbLookup key db with
  | some v => v
  | none => dflt

/-- Class to represent a period state (rounds.py, class PeriodState). The
participant count and the key-value store come from the base period state,
modelled from the spec: nb_participants is at least 1 and is available via
PeriodState. -/
structure PeriodState where
  nb_participants : Nat
  db : List (String × Val)
deriving DecidableEq

/-- Modelled from the spec: update returns a new immutable snapshot with the
given bindings added in front of the existing ones. -/
def PeriodState.update (s : PeriodState) (kvs : List (String × Val)) : PeriodState :=
  { s with db := kvs ++ s.db }

/-- Get the most_voted_strategy (strict access). -/
def PeriodState.most_voted_strategy (s : PeriodState) : Except String Val :=
  get_strict s.db "most_voted_strategy"

/-- Get the most_voted_transfers (strict access). -/
def PeriodState.most_voted_transfers (s : PeriodState) : Except String Val :=
  get_strict s.db "most_voted_transfers"

/-- Get the participant_to_strategy (strict access). -/
def PeriodState.participant_to_strategy (s : PeriodState) : Except String Val :=
  get_strict s.db "participant_to_strategy"

/-- Get the participant_to_tx_hash (strict access). -/
def PeriodState.participant_to_tx_hash (s : PeriodState) : Except String Val :=
  get_strict s.db "participant_to_tx_hash"

/-- Get the most_voted_keeper_address (strict access). -/
def PeriodState.most_voted_keeper_address (s : PeriodState) : Except String Val :=
  get_strict s.db "most_voted_keeper_address"

/-- Get the safe contract address (strict access). -/
def PeriodState.safe_contract_address (s : PeriodState) : Except String Val :=
  get_strict s.db "safe_contract_address"

/-- Get the multisend contract address (strict access). -/
def PeriodState.multisend_contract_address (s : PeriodState) : Except String Val :=
  get_strict s.db "multisend_contract_address"

/-- Get the router02 contract address (strict access). -/
def PeriodState.router_contract_address (s : PeriodState) : Except String Val :=
  get_strict s.db "router_contract_address"

/-- Get the participant_to_signature (strict access). -/
def PeriodState.participant_to_signature (s : PeriodState) : Except String Val :=
  get_strict s.db "participant_to_signature"

/-- Get the most_voted_tx_hash (strict access). -/
def PeriodState.most_voted_tx_hash (s : PeriodState) : Except String Val :=
  get_strict s.db "most_voted_tx_hash"

/-- Get the most_voted_tx_data (strict access). -/
def PeriodState.most_voted_tx_data (s : PeriodState) : Except String Val :=
  get_strict s.db "most_voted_tx_data"

/-- Get the final_tx_hash (strict access). -/
def PeriodState.final_tx_hash (s : PeriodState) : Except String Val :=
  get_strict s.db "final_tx_hash"

/-- Get the gas data: safe_operation uses defaulted access with default None, so
it never fails. -/
def PeriodState.safe_operation (s : PeriodState) : Val :=
  getWithDefault s.db "safe_operation" Val.noneV

/-- Modelled from the spec: the super-majority threshold computed from
nb_participants, the smallest integer strictly greater than 2n/3. -/
def consensus_threshold (n : Nat) : Nat := 2 * n / 3 + 1

/-- Modelled from the spec: the number of participants in the collection that
submitted exactly the payload value v. -/
def countVotes {α : Type} [DecidableEq α] (c : List (String × α)) (v : α) : Nat :=
  (c.filter (fun p => p.2 = v)).length

/-- Modelled from the spec: threshold_reached holds when the most frequent
payload value among current submissions has count at least the threshold. -/
def threshold_reached {α : Type} [DecidableEq α] (c : List (String × α)) (t : Nat) : Bool :=
  c.any (fun p => t ≤ countVotes c p.2)

/-- Modelled from the spec: the agreed (most voted) payload value, defined when
some submitted value has reached the threshold. -/
def mostVotedPayload {α : Type} [DecidableEq α] (c : List (String × α)) (t : Nat) : Option α :=
  (c.find? (fun p => t ≤ countVotes c p.2)).map (fun p => p.2)

/-- Modelled from the spec: the largest vote count among current submissions. -/
def maxVoteCount {α : Type} [DecidableEq α] (c : List (String × α)) : Nat :=
  (c.map (fun p => countVotes c p.2)).foldr max 0

/-- Modelled from the spec: is_majority_possible holds unless the current
max-count plus the remaining non-respondents falls short of the threshold. -/
def is_majority_possible {α : Type} [DecidableEq α]
    (c : List (String × α)) (n t : Nat) : Bool :=
  t ≤ maxVoteCount c + (n - c.length)

/-- Modelled from the spec: the opening-brace character of the JSON wire shape. -/
def lbrace : Char := Char.ofNat 123

/-- Modelled from the spec: the closing-brace character of the JSON wire shape. -/
def rbrace : Char := Char.ofNat 125

/-- Modelled from the spec: skip blanks in the JSON wire text. -/
def skipSpaces : List Char → List Char
  | [] => []
  | c :: rest => if c = ' ' then skipSpaces rest else c :: rest

/-- Modelled from the spec: consume the body of a JSON string up to the closing
quote, returning the body and the remainder. -/
def takeStringBody : List Char → Option (List Char × List Char)
  | [] => none
  | c :: rest =>
    if c = '"' then some ([], rest)
    else
      match takeStringBody rest with
      | some (body, rem) => some (c :: body, rem)
      | none => none

/-- Modelled from the spec: parse the comma-separated string-to-string pairs of
a JSON object, starting right after the opening brace, up to and including the
closing brace; fuelled recursion. -/
def parsePairs : Nat → List Char → Option (List (String × String) × List Char)
  | 0, _ => none
  | fuel + 1, cs =>
    match skipSpaces cs with
    | '"' :: rest =>
      match takeStringBody rest with
      | none => none
      | some (key, rem) =>
        match skipSpaces rem with
        | ':' :: rem2 =>
          match skipSpaces rem2 with
          | '"' :: rem3 =>
            match takeStringBody rem3 with
            | none => none
            | some (val, rem4) =>
              match skipSpaces rem4 with
              | ',' :: rem5 =>
                match parsePairs fuel rem5 with
                | some (ps, r) => some ((String.mk key, String.mk val) :: ps, r)
                | none => none
              | c :: rem5 =>
                if c = rbrace then some ([(String.mk key, String.mk val)], rem5) else none
              | [] => none
          | _ => none
        | _ => none
    | _ => none

/-- Modelled from the spec: json.loads restricted to the documented wire shape,
a flat JSON object with string keys and string values; returns the list of
key-value pairs, or none when the text is not of that shape. -/
def json_loads_obj (s : String) : Option (List (String × String)) :=
  match skipSpaces s.data with
  | c :: rest =>
    if c = lbrace then
      match skipSpaces rest with
      | d :: rem =>
        if d = rbrace then
          if (skipSpaces rem).isEmpty then some [] else none
        else
          match parsePairs (rest.length + 1) rest with
          | some (ps, rem2) => if (skipSpaces rem2).isEmpty then some ps else none
          | none => none
      | [] => none
    else none
  | [] => none

/-- Modelled from the spec: string-keyed lookup in a decoded JSON object;
indexing a missing key is a failure. -/
def jsonGet (ps : List (String × String)) (key : String) : Option String :=
  match ps with
  | [] => none
  | (k, v) :: rest => if k = key then some v else jsonGet rest key

/-- Result of one end_block call: a (new period state, event) decision, the
Python None return (round stays open), or a raised exception (failed JSON
decode or missing dictionary key). -/
inductive EndBlockResult where
  | decision (s : PeriodState) (e : Event)
  | noEvent
  | error
deriving DecidableEq

/-- A base class for rounds in which agents compute the transaction hash
(rounds.py, class TransactionHashBaseRound); the collection maps each sender to
its submitted tx_hash payload attribute, a JSON string. -/
structure TransactionHashBaseRound where
  round_id : String
  collection : List (String × String)
  period_state : PeriodState
deriving DecidableEq

/-- Process the end of the block (TransactionHashBaseRound.end_block): on
threshold, JSON-decode the most voted payload, write participant_to_tx_hash,
most_voted_tx_hash and most_voted_tx_data, and emit DONE; else NO_MAJORITY when
majority is impossible; else no event. -/
def TransactionHashBaseRound.end_block (r : TransactionHashBaseRound) : EndBlockResult :=
  let t := consensus_threshold r.period_state.nb_participants
  if threshold_reached r.collection t then
    match mostVotedPayload r.collection t with
    | none => EndBlockResult.error
    | some payload =>
      match json_loads_obj payload with
      | none => EndBlockResult.error
      | some dict_ =>
        match jsonGet dict_ "tx_hash", jsonGet dict_ "tx_data" with
        | some h, some d =>
          EndBlockResult.decision
            (r.period_state.update
              [("participant_to_tx_hash", Val.txCollection r.collection),
               ("most_voted_tx_hash", Val.str h),
               ("most_voted_tx_data", Val.str d)])
            Event.DONE
        | _, _ => EndBlockResult.error
  else
    if !(is_majority_possible r.collection r.period_state.nb_participants t) then
      EndBlockResult.decision r.period_state Event.NO_MAJORITY
    else
      EndBlockResult.noEvent

/-- A round in which agents evaluate the financial strategy (rounds.py, class
StrategyEvaluationRound); the collection maps each sender to its submitted
strategy payload attribute. -/
structure StrategyEvaluationRound where
  collection : List (String × Strategy)
  period_state : PeriodState
deriving DecidableEq

/-- Process the end of the block (StrategyEvaluationRound.end_block): on
threshold, write participant_to_strategy and most_voted_strategy, then derive
the event from the agreed action with default RESET_TIMEOUT; else NO_MAJORITY
when majority is impossible; else no event. -/
def StrategyEvaluationRound.end_block (r : StrategyEvaluationRound) : EndBlockResult :=
  let t := consensus_threshold r.period_state.nb_participants
  if threshold_reached r.collection t then
    match mostVotedPayload r.collection t with
    | none => EndBlockResult.error
    | some strat =>
      let state := r.period_state.update
        [("participant_to_strategy", Val.strategyCollection r.collection),
         ("most_voted_strategy", Val.strategy strat)]
      let event :=
        if strat.action = StrategyType.WAIT.value then Event.DONE
        else if strat.action = StrategyType.ENTER.value then Event.DONE_ENTER
        else if strat.action = StrategyType.EXIT.value then Event.DONE_EXIT
        else if strat.action = StrategyType.SWAP_BACK.value then Event.DONE_SWAP_BACK
        else Event.RESET_TIMEOUT
      EndBlockResult.decision state event
  else
    if !(is_majority_possible r.collection r.period_state.nb_participants t) then
      EndBlockResult.decision r.period_state Event.NO_MAJORITY
    else
      EndBlockResult.noEvent

/-- Modelled from the spec: a generic transaction payload as delivered to a
round, a sender together with opaque payload data. -/
structure BaseTxPayload where
  sender : String
  data : String
deriving DecidableEq

/-- A round in which agents wait for a predefined amount of time (rounds.py,
class SleepRound); it keeps no collection. -/
structure SleepRound where
  period_state : PeriodState
deriving DecidableEq

/-- Check payload (SleepRound.check_payload): a no-op that never fails. -/
def SleepRound.check_payload (_r : SleepRound) (_p : BaseTxPayload) : Except String Unit :=
  Except.ok ()

/-- Process payload (SleepRound.process_payload): a no-op leaving the round
unchanged. -/
def SleepRound.process_payload (r : SleepRound) (_p : BaseTxPayload) : SleepRound := r

/-- Process the end of the block (SleepRound.end_block): unconditionally return
the unchanged period state with DONE. -/
def SleepRound.end_block (r : SleepRound) : EndBlockResult :=
  EndBlockResult.decision r.period_state Event.DONE

/-- Round identities of the application FSM, one per round class of rounds.py
(the three Finished rounds are degenerate terminal rounds of the base package,
carried here purely as identities). -/
inductive RoundId where
  | StrategyEvaluationRound
  | SleepRound
  | EnterPoolTransactionHashRound
  | FinishedEnterPoolTransactionHashRound
  | ExitPoolTransactionHashRound
  | FinishedExitPoolTransactionHashRound
  | SwapBackTransactionHashRound
  | FinishedSwapBackTransactionHashRound
deriving DecidableEq, Fintype

/-- The initial round of LiquidityRebalancingAbciApp (initial_round_cls). -/
def initial_round_cls : RoundId := RoundId.StrategyEvaluationRound

/-- The static transition table of LiquidityRebalancingAbciApp
(transition_function), a dictionary from round to per-event dictionary. -/
def transition_function : List (RoundId × List (Event × RoundId)) :=
  [(RoundId.StrategyEvaluationRound,
     [(Event.DONE, RoundId.SleepRound),
      (Event.DONE_ENTER, RoundId.EnterPoolTransactionHashRound),
      (Event.DONE_EXIT, RoundId.ExitPoolTransactionHashRound),
      (Event.DONE_SWAP_BACK, RoundId.SwapBackTransactionHashRound),
      (Event.ROUND_TIMEOUT, RoundId.StrategyEvaluationRound),
      (Event.NO_MAJORITY, RoundId.StrategyEvaluationRound)]),
   (RoundId.SleepRound,
     [(Event.DONE, RoundId.StrategyEvaluationRound),
      (Event.ROUND_TIMEOUT, RoundId.StrategyEvaluationRound),
      (Event.NO_MAJORITY, RoundId.StrategyEvaluationRound)]),
   (RoundId.EnterPoolTransactionHashRound,
     [(Event.DONE, RoundId.FinishedEnterPoolTransactionHashRound),
      (Event.ROUND_TIMEOUT, RoundId.StrategyEvaluationRound),
      (Event.NO_MAJORITY, RoundId.StrategyEvaluationRound)]),
   (RoundId.FinishedEnterPoolTransactionHashRound, []),
   (RoundId.ExitPoolTransactionHashRound,
     [(Event.DONE, RoundId.FinishedExitPoolTransactionHashRound),
      (Event.ROUND_TIMEOUT, RoundId.StrategyEvaluationRound),
      (Event.NO_MAJORITY, RoundId.StrategyEvaluationRound)]),
   (RoundId.FinishedExitPoolTransactionHashRound, []),
   (RoundId.SwapBackTransactionHashRound,
     [(Event.DONE, RoundId.FinishedSwapBackTransactionHashRound),
      (Event.ROUND_TIMEOUT, RoundId.StrategyEvaluationRound),
      (Event.NO_MAJORITY, RoundId.StrategyEvaluationRound)]),
   (RoundId.FinishedSwapBackTransactionHashRound, [])]

/-- The final states of LiquidityRebalancingAbciApp (final_states). -/
def final_states : List RoundId :=
  [RoundId.FinishedEnterPoolTransactionHashRound,
   RoundId.FinishedExitPoolTransactionHashRound,
   RoundId.FinishedSwapBackTransactionHashRound]

/-- The event timeout table of LiquidityRebalancingAbciApp (event_to_timeout);
the two durations are exact literals, modelled as rationals. -/
def event_to_timeout : List (Event × ℚ) :=
  [(Event.EXIT, 5), (Event.ROUND_TIMEOUT, 30)]

/-- One FSM lookup: the next round for (current round, event), none when the
event is not listed for the current round. -/
def transition (r : RoundId) (e : Event) : Option RoundId :=
  (transition_function.lookup r).bind (fun m => m.lookup e)

/-- The rounds that are keys of the transition table. -/
def tableKeys : List RoundId := transition_function.map (fun p => p.1)

/-- Iterate the FSM from a round over a sequence of events, failing when an
event is not listed for the current round. -/
def runEvents : RoundId → List Event → Option RoundId
  | r, [] => some r
  | r, e :: es => (transition r e).bind (fun r2 => runEvents r2 es)

/-- The transition table exactly as the specification states it (written from the
spec's words, for comparison with transition_function translated from the code):
events not listed for a round have no entry. -/
def spec_transition : RoundId → Event → Option RoundId
  | RoundId.StrategyEvaluationRound, Event.DONE => some RoundId.SleepRound
  | RoundId.StrategyEvaluationRound, Event.DONE_ENTER => some RoundId.EnterPoolTransactionHashRound
  | RoundId.StrategyEvaluationRound, Event.DONE_EXIT => some RoundId.ExitPoolTransactionHashRound
  | RoundId.StrategyEvaluationRound, Event.DONE_SWAP_BACK => some RoundId.SwapBackTransactionHashRound
  | RoundId.StrategyEvaluationRound, Event.ROUND_TIMEOUT => some RoundId.StrategyEvaluationRound
  | RoundId.StrategyEvaluationRound, Event.NO_MAJORITY => some RoundId.StrategyEvaluationRound
  | RoundId.SleepRound, Event.DONE => some RoundId.StrategyEvaluationRound
  | RoundId.SleepRound, Event.ROUND_TIMEOUT => some RoundId.StrategyEvaluationRound
  | RoundId.SleepRound, Event.NO_MAJORITY => some RoundId.StrategyEvaluationRound
  | RoundId.EnterPoolTransactionHashRound, Event.DONE => some RoundId.FinishedEnterPoolTransactionHashRound
  | RoundId.EnterPoolTransactionHashRound, Event.ROUND_TIMEOUT => some RoundId.StrategyEvaluationRound
  | RoundId.EnterPoolTransactionHashRound, Event.NO_MAJORITY => some RoundId.StrategyEvaluationRound
  | RoundId.ExitPoolTransactionHashRound, Event.DONE => some RoundId.FinishedExitPoolTransactionHashRound
  | RoundId.ExitPoolTransactionHashRound, Event.ROUND_TIMEOUT => some RoundId.StrategyEvaluationRound
  | RoundId.ExitPoolTransactionHashRound, Event.NO_MAJORITY => some RoundId.StrategyEvaluationRound
  | RoundId.SwapBackTransactionHashRound, Event.DONE => some RoundId.FinishedSwapBackTransactionHashRound
  | RoundId.SwapBackTransactionHashRound, Event.ROUND_TIMEOUT => some RoundId.StrategyEvaluationRound
  | RoundId.SwapBackTransactionHashRound, Event.NO_MAJORITY => some RoundId.StrategyEvaluationRound
  | _, _ => none

/-- C2: the FSM's static transition table agrees with the spec's table on every
(round, event) pair, the initial round is StrategyEvaluationRound, and the final
rounds are exactly the three Finished terminals. -/
theorem transition_table_exact :
    (∀ r e, transition r e = spec_transition r e) ∧
    initial_round_cls = RoundId.StrategyEvaluationRound ∧
    final_states =
      [RoundId.FinishedEnterPoolTransactionHashRound,
       RoundId.FinishedExitPoolTransactionHashRound,
       RoundId.FinishedSwapBackTransactionHashRound] := by
  refine ⟨?_, rfl, rfl⟩
  decide

/-- C7: SleepRound's check_payload and process_payload are no-ops that never
fail (any sequence of submissions leaves the round unchanged), and end_block
returns the unchanged period state with DONE, without any quorum condition. -/
theorem sleepRound_noop_and_done (r : SleepRound) (ps : List BaseTxPayload) (p : BaseTxPayload) :
    ps.foldl SleepRound.process_payload r = r ∧
    SleepRound.check_payload r p = Except.ok () ∧
    SleepRound.end_block r = EndBlockResult.decision r.period_state Event.DONE := by
  refine ⟨?_, rfl, rfl⟩
  induction ps with
  | nil => rfl
  | cons a as ih => exact ih

/-- C8: the event-to-timeout table maps exactly two events, EXIT to 5.0 time
units and ROUND_TIMEOUT to 30.0 time units; every other event has no entry. -/
theorem event_to_timeout_exact :
    event_to_timeout.lookup Event.EXIT = some 5 ∧
    event_to_timeout.lookup Event.ROUND_TIMEOUT = some 30 ∧
    event_to_timeout.lookup Event.DONE = none ∧
    event_to_timeout.lookup Event.DONE_ENTER = none ∧
    event_to_timeout.lookup Event.DONE_EXIT = none ∧
    event_to_timeout.lookup Event.DONE_SWAP_BACK = none ∧
    event_to_timeout.lookup Event.NO_MAJORITY = none ∧
    event_to_timeout.lookup Event.RESET_TIMEOUT = none := by
  refine ⟨rfl, rfl, rfl, rfl, rfl, rfl, rfl, rfl⟩

/-- C10: when its key is absent from the store, safe_operation returns the
Python None value without failing, whereas every other PeriodState accessor
fails (strict access raises on the missing key). -/
theorem periodState_accessor_strictness (s : PeriodState) :
    (dbLookup "safe_operation" s.db = none → s.safe_operation = Val.noneV) ∧
    (dbLookup "most_voted_strategy" s.db = none →
      s.most_voted_strategy = Except.error "most_voted_strategy") ∧
    (dbLookup "most_voted_transfers" s.db = none →
      s.most_voted_transfers = Except.error "most_voted_transfers") ∧
    (dbLookup "participant_to_strategy" s.db = none →
      s.participant_to_strategy = Except.error "participant_to_strategy") ∧
    (dbLookup "participant_to_tx_hash" s.db = none →
      s.participant_to_tx_hash = Except.error "participant_to_tx_hash") ∧
    (dbLookup "most_voted_keeper_address" s.db = none →
      s.most_voted_keeper_address = Except.error "most_voted_keeper_address") ∧
    (dbLookup "safe_contract_address" s.db = none →
      s.safe_contract_address = Except.error "safe_contract_address") ∧
    (dbLookup "multisend_contract_address" s.db = none →
      s.multisend_contract_address = Except.error "multisend_contract_address") ∧
    (dbLookup "router_contract_address" s.db = none →
      s.router_contract_address = Except.error "router_contract_address") ∧
    (dbLookup "participant_to_signature" s.db = none →
      s.participant_to_signature = Except.error "participant_to_signature") ∧
    (dbLookup "most_voted_tx_hash" s.db = none →
      s.most_voted_tx_hash = Except.error "most_voted_tx_hash") ∧
    (dbLookup "most_voted_tx_data" s.db = none →
      s.most_voted_tx_data = Except.error "most_voted_tx_data") ∧
    (dbLookup "final_tx_hash" s.db = none →
      s.final_tx_hash = Except.error "final_tx_hash") := by
  refine ⟨?_, ?_, ?_, ?_, ?_, ?_, ?_, ?_, ?_, ?_, ?_, ?_, ?_⟩ <;>
    · intro h
      simp [PeriodState.safe_operation, PeriodState.most_voted_strategy,
        PeriodState.most_voted_transfers, PeriodState.participant_to_strategy,
        PeriodState.participant_to_tx_hash, PeriodState.most_voted_keeper_address,
        PeriodState.safe_contract_address, PeriodState.multisend_contract_address,
        PeriodState.router_contract_address, PeriodState.participant_to_signature,
        PeriodState.most_voted_tx_hash, PeriodState.most_voted_tx_data,
        PeriodState.final_tx_hash, get_strict, getWithDefault, h]

/-- C10 witness: on a state with an empty store, safe_operation returns None
while most_voted_strategy and final_tx_hash fail. -/
theorem periodState_accessor_strictness_witness :
    PeriodState.safe_operation ⟨4, []⟩ = Val.noneV ∧
    PeriodState.most_voted_strategy ⟨4, []⟩ = Except.error "most_voted_strategy" ∧
    PeriodState.final_tx_hash ⟨4, []⟩ = Except.error "final_tx_hash" :=
  ⟨(periodState_accessor_strictness ⟨4, []⟩).1 rfl,
   (periodState_accessor_strictness ⟨4, []⟩).2.1 rfl,
   (periodState_accessor_strictness ⟨4, []⟩).2.2.2.2.2.2.2.2.2.2.2.2 rfl⟩

/-- C5: when the threshold is not reached, both round kinds emit NO_MAJORITY
with the period state unchanged exactly when no value can still reach the
threshold, and otherwise return no event, leaving the round open. -/
theorem below_threshold_no_majority_or_open
    (r : TransactionHashBaseRound) (q : StrategyEvaluationRound)
    (hr : threshold_reached r.collection
      (consensus_threshold r.period_state.nb_participants) = false)
    (hq : threshold_reached q.collection
      (consensus_threshold q.period_state.nb_participants) = false) :
    ((is_majority_possible r.collection r.period_state.nb_participants
        (consensus_threshold r.period_state.nb_participants) = false →
      r.end_block = EndBlockResult.decision r.period_state Event.NO_MAJORITY) ∧
     (is_majority_possible r.collection r.period_state.nb_participants
        (consensus_threshold r.period_state.nb_participants) = true →
      r.end_block = EndBlockResult.noEvent)) ∧
    ((is_majority_possible q.collection q.period_state.nb_participants
        (consensus_threshold q.period_state.nb_participants) = false →
      q.end_block = EndBlockResult.decision q.period_state Event.NO_MAJORITY) ∧
     (is_majority_possible q.collection q.period_state.nb_participants
        (consensus_threshold q.period_state.nb_participants) = true →
      q.end_block = EndBlockResult.noEvent)) := by
  refine ⟨⟨?_, ?_⟩, ⟨?_, ?_⟩⟩ <;> intro hm
  · simp [TransactionHashBaseRound.end_block, hr, hm]
  · simp [TransactionHashBaseRound.end_block, hr, hm]
  · simp [StrategyEvaluationRound.end_block, hq, hm]
  · simp [StrategyEvaluationRound.end_block, hq, hm]

/-- A transaction-hash round in which no majority is possible any more: 4
participants, 3 pairwise distinct submissions, threshold 3. -/
def txNoMajoritySample : TransactionHashBaseRound :=
  { round_id := "enter_pool_tx_hash"
  , collection := [("a0", "h0"), ("a1", "h1"), ("a2", "h2")]
  , period_state := { nb_participants := 4, db := [] } }

/-- A strategy round that is still open: 4 participants, a single submission,
threshold 3. -/
def strategyOpenSample : StrategyEvaluationRound :=
  { collection := [("a0", ⟨"enter", []⟩)]
  , period_state := { nb_participants := 4, db := [] } }

/-- C5 witness: the no-majority transaction-hash sample emits NO_MAJORITY with
its state unchanged, and the still-open strategy sample returns no event. -/
theorem below_threshold_witness :
    txNoMajoritySample.end_block =
      EndBlockResult.decision txNoMajoritySample.period_state Event.NO_MAJORITY ∧
    strategyOpenSample.end_block = EndBlockResult.noEvent :=
  ⟨(below_threshold_no_majority_or_open txNoMajoritySample strategyOpenSample
      (by decide) (by decide)).1.1 (by decide),
   (below_threshold_no_majority_or_open txNoMajoritySample strategyOpenSample
      (by decide) (by decide)).2.2 (by decide)⟩

/-- C6: for every participant count n at least 1, the agreement threshold is the
smallest integer strictly greater than 2n/3 (so threshold 4 = 3), and a commit
decision of either round kind requires at least threshold identical payloads. -/
theorem threshold_is_supermajority (n : Nat) (hn : 1 ≤ n) :
    (2 * n < 3 * consensus_threshold n ∧
     ∀ k, 2 * n < 3 * k → consensus_threshold n ≤ k) ∧
    consensus_threshold 4 = 3 ∧
    (∀ (r : TransactionHashBaseRound) (s : PeriodState) (e : Event),
      r.end_block = EndBlockResult.decision s e → e ≠ Event.NO_MAJORITY →
      ∃ v, consensus_threshold r.period_state.nb_participants ≤ countVotes r.collection v) ∧
    (∀ (q : StrategyEvaluationRound) (s : PeriodState) (e : Event),
      q.end_block = EndBlockResult.decision s e → e ≠ Event.NO_MAJORITY →
      ∃ v, consensus_threshold q.period_state.nb_participants ≤ countVotes q.collection v) := by
  refine ⟨⟨?_, ?_⟩, rfl, ?_, ?_⟩
  · simp only [consensus_threshold]
    omega
  · intro k hk
    simp only [consensus_threshold]
    omega
  · intro r s e hdec hne
    by_cases ht : threshold_reached r.collection
        (consensus_threshold r.period_state.nb_participants) = true
    · rcases List.any_eq_true.mp ht with ⟨p, hp, hcount⟩
      exact ⟨p.2, by simpa using hcount⟩
    · exfalso
      rw [Bool.not_eq_true] at ht
      by_cases hm : is_majority_possible r.collection r.period_state.nb_participants
          (consensus_threshold r.period_state.nb_participants) = true
      · simp [TransactionHashBaseRound.end_block, ht, hm] at hdec
      · rw [Bool.not_eq_true] at hm
        simp [TransactionHashBaseRound.end_block, ht, hm] at hdec
        exact hne hdec.2.symm
  · intro q s e hdec hne
    by_cases ht : threshold_reached q.collection
        (consensus_threshold q.period_state.nb_participants) = true
    · rcases List.any_eq_true.mp ht with ⟨p, hp, hcount⟩
      exact ⟨p.2, by simpa using hcount⟩
    · exfalso
      rw [Bool.not_eq_true] at ht
      by_cases hm : is_majority_possible q.collection q.period_state.nb_participants
          (consensus_threshold q.period_state.nb_participants) = true
      · simp [StrategyEvaluationRound.end_block, ht, hm] at hdec
      · rw [Bool.not_eq_true] at hm
        simp [StrategyEvaluationRound.end_block, ht, hm] at hdec
        exact hne hdec.2.symm

/-- The spec's commit scenario: 4 participants, 3 submit action enter, 1 submits
action exit; threshold 3. -/
def strategyEnterSample : StrategyEvaluationRound :=
  { collection :=
      [("a0", ⟨"enter", []⟩), ("a1", ⟨"enter", []⟩),
       ("a2", ⟨"enter", []⟩), ("a3", ⟨"exit", []⟩)]
  , period_state := { nb_participants := 4, db := [] } }

/-- C6 witness: at n = 4 the threshold is greater than 2n/3 and at most 3, and
the committed 3-of-4 enter scenario indeed holds at least threshold identical
payloads. -/
theorem threshold_is_supermajority_witness :
    (2 * 4 < 3 * consensus_threshold 4 ∧ consensus_threshold 4 ≤ 3) ∧
    (∃ v, consensus_threshold strategyEnterSample.period_state.nb_participants ≤
      countVotes strategyEnterSample.collection v) :=
  ⟨⟨(threshold_is_supermajority 4 (by decide)).1.1,
    (threshold_is_supermajority 4 (by decide)).1.2 3 (by decide)⟩,
   (threshold_is_supermajority 4 (by decide)).2.2.2 strategyEnterSample
     (strategyEnterSample.period_state.update
       [("participant_to_strategy", Val.strategyCollection strategyEnterSample.collection),
        ("most_voted_strategy", Val.strategy ⟨"enter", []⟩)])
     Event.DONE_ENTER (by decide) (by decide)⟩

/-- C1: on every committed strategy evaluation (threshold reached), end_block
returns a decision whose state holds the full collection under
participant_to_strategy and the agreed payload under most_voted_strategy, and
whose event is DONE for action wait, DONE_ENTER for enter, DONE_EXIT for exit,
DONE_SWAP_BACK for swap_back, and RESET_TIMEOUT for every other action. -/
theorem strategyEvaluation_commit_writes_and_branches
    (r : StrategyEvaluationRound)
    (h : threshold_reached r.collection
      (consensus_threshold r.period_state.nb_participants) = true) :
    ∃ strat s e,
      mostVotedPayload r.collection
        (consensus_threshold r.period_state.nb_participants) = some strat ∧
      r.end_block = EndBlockResult.decision s e ∧
      get_strict s.db "participant_to_strategy" =
        Except.ok (Val.strategyCollection r.collection) ∧
      get_strict s.db "most_voted_strategy" = Except.ok (Val.strategy strat) ∧
      (strat.action = "wait" → e = Event.DONE) ∧
      (strat.action = "enter" → e = Event.DONE_ENTER) ∧
      (strat.action = "exit" → e = Event.DONE_EXIT) ∧
      (strat.action = "swap_back" → e = Event.DONE_SWAP_BACK) ∧
      (strat.action ≠ "wait" → strat.action ≠ "enter" → strat.action ≠ "exit" →
        strat.action ≠ "swap_back" → e = Event.RESET_TIMEOUT) := by
  have hfind : (r.collection.find? (fun p =>
      consensus_threshold r.period_state.nb_participants ≤ countVotes r.collection p.2)).isSome := by
    rcases List.any_eq_true.mp h with ⟨p, hp, hcount⟩
    exact List.find?_isSome.mpr ⟨p, hp, hcount⟩
  rcases Option.isSome_iff_exists.mp hfind with ⟨pr, hpr⟩
  refine ⟨pr.2,
    r.period_state.update
      [("participant_to_strategy", Val.strategyCollection r.collection),
       ("most_voted_strategy", Val.strategy pr.2)],
    (if pr.2.action = StrategyType.WAIT.value then Event.DONE
     else if pr.2.action = StrategyType.ENTER.value then Event.DONE_ENTER
     else if pr.2.action = StrategyType.EXIT.value then Event.DONE_EXIT
     else if pr.2.action = StrategyType.SWAP_BACK.value then Event.DONE_SWAP_BACK
     else Event.RESET_TIMEOUT),
    ?_, ?_, rfl, rfl, ?_, ?_, ?_, ?_, ?_⟩
  · simp [mostVotedPayload, hpr]
  · simp [StrategyEvaluationRound.end_block, h, mostVotedPayload, hpr]
  · intro ha; simp [StrategyType.value, ha]
  · intro ha; simp [StrategyType.value, ha]
  · intro ha; simp [StrategyType.value, ha]
  · intro ha; simp [StrategyType.value, ha]
  · intro h1 h2 h3 h4
    simp only [StrategyType.value]
    rw [if_neg h1, if_neg h2, if_neg h3, if_neg h4]

/-- C1 witness: the 3-of-4 enter scenario commits, writes the collection and the
agreed strategy, and branches the event by the agreed action. -/
theorem strategyEvaluation_commit_witness :
    ∃ strat s e,
      mostVotedPayload strategyEnterSample.collection
        (consensus_threshold strategyEnterSample.period_state.nb_participants) = some strat ∧
      strategyEnterSample.end_block = EndBlockResult.decision s e ∧
      get_strict s.db "participant_to_strategy" =
        Except.ok (Val.strategyCollection strategyEnterSample.collection) ∧
      get_strict s.db "most_voted_strategy" = Except.ok (Val.strategy strat) ∧
      (strat.action = "wait" → e = Event.DONE) ∧
      (strat.action = "enter" → e = Event.DONE_ENTER) ∧
      (strat.action = "exit" → e = Event.DONE_EXIT) ∧
      (strat.action = "swap_back" → e = Event.DONE_SWAP_BACK) ∧
      (strat.action ≠ "wait" → strat.action ≠ "enter" → strat.action ≠ "exit" →
        strat.action ≠ "swap_back" → e = Event.RESET_TIMEOUT) :=
  strategyEvaluation_commit_writes_and_branches strategyEnterSample (by decide)

/-- The spec's round-trip payload, the JSON text with tx_hash 0xabc and tx_data
0x01 (braces written by code point). -/
def txHashPayloadSample : String :=
  "\x7b\"tx_hash\":\"0xabc\",\"tx_data\":\"0x01\"\x7d"

/-- The spec's round-trip scenario: an enter-pool transaction-hash round with a
4-of-4 supermajority on the sample payload. -/
def enterPoolSample : TransactionHashBaseRound :=
  { round_id := "enter_pool_tx_hash"
  , collection :=
      [("a0", txHashPayloadSample), ("a1", txHashPayloadSample),
       ("a2", txHashPayloadSample), ("a3", txHashPayloadSample)]
  , period_state := { nb_participants := 4, db := [] } }

/-- C3: on every committed transaction-hash round, end_block JSON-decodes the
agreed payload, writes the full collection under participant_to_tx_hash and the
decoded tx_hash and tx_data fields under most_voted_tx_hash and
most_voted_tx_data, and emits DONE; the behavior is independent of the round_id
(so it is identical for the enter-pool, exit-pool and swap-back
specializations); and the concrete 4-of-4 enter-pool scenario yields
most_voted_tx_hash 0xabc, most_voted_tx_data 0x01, event DONE, and next round
FinishedEnterPoolTransactionHashRound. -/
theorem txHash_commit_writes_and_done
    (r : TransactionHashBaseRound) (payload th td : String)
    (pairs : List (String × String))
    (h : threshold_reached r.collection
      (consensus_threshold r.period_state.nb_participants) = true)
    (hmv : mostVotedPayload r.collection
      (consensus_threshold r.period_state.nb_participants) = some payload)
    (hj : json_loads_obj payload = some pairs)
    (hh : jsonGet pairs "tx_hash" = some th)
    (hd : jsonGet pairs "tx_data" = some td) :
    (∀ rid : String,
      TransactionHashBaseRound.end_block { r with round_id := rid } = r.end_block) ∧
    r.end_block = EndBlockResult.decision
      (r.period_state.update
        [("participant_to_tx_hash", Val.txCollection r.collection),
         ("most_voted_tx_hash", Val.str th),
         ("most_voted_tx_data", Val.str td)]) Event.DONE ∧
    get_strict (r.period_state.update
        [("participant_to_tx_hash", Val.txCollection r.collection),
         ("most_voted_tx_hash", Val.str th),
         ("most_voted_tx_data", Val.str td)]).db "participant_to_tx_hash" =
      Except.ok (Val.txCollection r.collection) ∧
    get_strict (r.period_state.update
        [("participant_to_tx_hash", Val.txCollection r.collection),
         ("most_voted_tx_hash", Val.str th),
         ("most_voted_tx_data", Val.str td)]).db "most_voted_tx_hash" =
      Except.ok (Val.str th) ∧
    get_strict (r.period_state.update
        [("participant_to_tx_hash", Val.txCollection r.collection),
         ("most_voted_tx_hash", Val.str th),
         ("most_voted_tx_data", Val.str td)]).db "most_voted_tx_data" =
      Except.ok (Val.str td) ∧
    (enterPoolSample.end_block = EndBlockResult.decision
      (enterPoolSample.period_state.update
        [("participant_to_tx_hash", Val.txCollection enterPoolSample.collection),
         ("most_voted_tx_hash", Val.str "0xabc"),
         ("most_voted_tx_data", Val.str "0x01")]) Event.DONE) ∧
    transition RoundId.EnterPoolTransactionHashRound Event.DONE =
      some RoundId.FinishedEnterPoolTransactionHashRound := by
  refine ⟨fun rid => rfl, ?_, rfl, rfl, rfl, by decide, rfl⟩
  simp [TransactionHashBaseRound.end_block, h, hmv, hj, hh, hd]

/-- C3 witness: the 4-of-4 enter-pool scenario commits with tx_hash 0xabc,
tx_data 0x01 and event DONE, and the table sends DONE to the enter-pool
terminal. -/
theorem txHash_commit_witness :
    enterPoolSample.end_block = EndBlockResult.decision
      (enterPoolSample.period_state.update
        [("participant_to_tx_hash", Val.txCollection enterPoolSample.collection),
         ("most_voted_tx_hash", Val.str "0xabc"),
         ("most_voted_tx_data", Val.str "0x01")]) Event.DONE ∧
    transition RoundId.EnterPoolTransactionHashRound Event.DONE =
      some RoundId.FinishedEnterPoolTransactionHashRound :=
  ⟨(txHash_commit_writes_and_done enterPoolSample txHashPayloadSample "0xabc" "0x01"
      [("tx_hash", "0xabc"), ("tx_data", "0x01")]
      (by decide) (by decide) (by decide) (by decide) (by decide)).2.1,
   (txHash_commit_writes_and_done enterPoolSample txHashPayloadSample "0xabc" "0x01"
      [("tx_hash", "0xabc"), ("tx_data", "0x01")]
      (by decide) (by decide) (by decide) (by decide) (by decide)).2.2.2.2.2.2⟩

/-- The state produced by the committed 3-of-4 enter scenario. -/
def strategyEnterCommittedState : PeriodState :=
  strategyEnterSample.period_state.update
    [("participant_to_strategy", Val.strategyCollection strategyEnterSample.collection),
     ("most_voted_strategy", Val.strategy ⟨"enter", []⟩)]

/-- C4 counterexample: end_block is a pure function of the unchanged round, so
after the commit decision has been returned once, a second call on the same
unchanged instance returns the decision again instead of no event. -/
theorem end_block_refires_counterexample :
    strategyEnterSample.end_block =
      EndBlockResult.decision strategyEnterCommittedState Event.DONE_ENTER ∧
    strategyEnterSample.end_block ≠ EndBlockResult.noEvent :=
  ⟨by decide, by decide⟩

/-- Bindings whose keys avoid a prepended block are looked up past it. -/
theorem dbLookup_append_of_ne (k : String) (kvs db : List (String × Val))
    (h : ∀ p ∈ kvs, p.1 ≠ k) : dbLookup k (kvs ++ db) = dbLookup k db := by
  induction kvs with
  | nil => rfl
  | cons a as ih =>
    rw [List.cons_append, dbLookup, if_neg (h a (List.mem_cons_self a as))]
    exact ih (fun p hp => h p (List.mem_cons_of_mem a hp))

/-- C4 amended: for both round kinds, a second end_block call on the same
unchanged round instance returns the identical decision again (the call is
deterministic, never silenced), and the decision's state leaves every binding
outside the round's own written keys exactly as in the prior period state. -/
theorem end_block_second_call_same_decision :
    (∀ (r : TransactionHashBaseRound) (s : PeriodState) (e : Event),
      r.end_block = EndBlockResult.decision s e →
      r.end_block = EndBlockResult.decision s e ∧
      ∀ k, k ≠ "participant_to_tx_hash" → k ≠ "most_voted_tx_hash" →
        k ≠ "most_voted_tx_data" →
        dbLookup k s.db = dbLookup k r.period_state.db) ∧
    (∀ (q : StrategyEvaluationRound) (s : PeriodState) (e : Event),
      q.end_block = EndBlockResult.decision s e →
      q.end_block = EndBlockResult.decision s e ∧
      ∀ k, k ≠ "participant_to_strategy" → k ≠ "most_voted_strategy" →
        dbLookup k s.db = dbLookup k q.period_state.db) := by
  constructor
  · intro r s e hdec
    refine ⟨hdec, ?_⟩
    intro k h1 h2 h3
    simp only [TransactionHashBaseRound.end_block] at hdec
    split at hdec
    · split at hdec
      · exact absurd hdec (by simp)
      · split at hdec
        · exact absurd hdec (by simp)
        · split at hdec
          · rw [EndBlockResult.decision.injEq] at hdec
            rw [← hdec.1]
            refine dbLookup_append_of_ne k _ _ ?_
            intro p hp
            simp only [List.mem_cons, List.not_mem_nil, or_false] at hp
            rcases hp with h | h | h <;> subst h
            · exact Ne.symm h1
            · exact Ne.symm h2
            · exact Ne.symm h3
          · exact absurd hdec (by simp)
    · split at hdec
      · rw [EndBlockResult.decision.injEq] at hdec
        rw [← hdec.1]
      · exact absurd hdec (by simp)
  · intro q s e hdec
    refine ⟨hdec, ?_⟩
    intro k h1 h2
    simp only [StrategyEvaluationRound.end_block] at hdec
    split at hdec
    · split at hdec
      · exact absurd hdec (by simp)
      · rw [EndBlockResult.decision.injEq] at hdec
        rw [← hdec.1]
        refine dbLookup_append_of_ne k _ _ ?_
        intro p hp
        simp only [List.mem_cons, List.not_mem_nil, or_false] at hp
        rcases hp with h | h <;> subst h
        · exact Ne.symm h1
        · exact Ne.symm h2
    · split at hdec
      · rw [EndBlockResult.decision.injEq] at hdec
        rw [← hdec.1]
      · exact absurd hdec (by simp)

/-- A committed exit-pool transaction-hash round whose period state already
holds a safe contract address binding. -/
def txCommittedSample : TransactionHashBaseRound :=
  { round_id := "exit_pool_tx_hash"
  , collection :=
      [("a0", txHashPayloadSample), ("a1", txHashPayloadSample),
       ("a2", txHashPayloadSample), ("a3", txHashPayloadSample)]
  , period_state :=
      { nb_participants := 4
      , db := [("safe_contract_address", Val.str "0xsafe")] } }

/-- C4 witness: on the committed sample, a repeated end_block call yields the
same decision, and the pre-existing safe contract address binding is untouched
in the decision's state. -/
theorem end_block_second_call_witness :
    txCommittedSample.end_block = EndBlockResult.decision
      (txCommittedSample.period_state.update
        [("participant_to_tx_hash", Val.txCollection txCommittedSample.collection),
         ("most_voted_tx_hash", Val.str "0xabc"),
         ("most_voted_tx_data", Val.str "0x01")]) Event.DONE ∧
    dbLookup "safe_contract_address"
        (txCommittedSample.period_state.update
          [("participant_to_tx_hash", Val.txCollection txCommittedSample.collection),
           ("most_voted_tx_hash", Val.str "0xabc"),
           ("most_voted_tx_data", Val.str "0x01")]).db =
      dbLookup "safe_contract_address" txCommittedSample.period_state.db :=
  ⟨(end_block_second_call_same_decision.1 txCommittedSample
      (txCommittedSample.period_state.update
        [("participant_to_tx_hash", Val.txCollection txCommittedSample.collection),
         ("most_voted_tx_hash", Val.str "0xabc"),
         ("most_voted_tx_data", Val.str "0x01")]) Event.DONE (by decide)).1,
   (end_block_second_call_same_decision.1 txCommittedSample
      (txCommittedSample.period_state.update
        [("participant_to_tx_hash", Val.txCollection txCommittedSample.collection),
         ("most_voted_tx_hash", Val.str "0xabc"),
         ("most_voted_tx_data", Val.str "0x01")]) Event.DONE (by decide)).2
     "safe_contract_address" (by decide) (by decide) (by decide)⟩

/-- One FSM step from a table key lands on a table key. -/
theorem transition_target_is_key :
    ∀ (r : RoundId) (e : Event) (r2 : RoundId),
      transition r e = some r2 → r2 ∈ tableKeys := by
  decide

/-- Iterating the FSM from a table key stays within the table keys. -/
theorem runEvents_stays_in_keys :
    ∀ (es : List Event) (r r2 : RoundId), r ∈ tableKeys →
      runEvents r es = some r2 → r2 ∈ tableKeys := by
  intro es
  induction es with
  | nil =>
    intro r r2 hr h
    rw [runEvents] at h
    cases h
    exact hr
  | cons e es ih =>
    intro r r2 hr h
    rw [runEvents] at h
    rcases htr : transition r e with _ | rmid
    · rw [htr] at h
      cases h
    · rw [htr] at h
      exact ih rmid r2 (transition_target_is_key r e rmid htr) h

/-- C9: the transition table is closed: every transition target is a table key,
exactly the three final rounds have an empty outgoing-edge map, every non-final
round has outgoing edges for both ROUND_TIMEOUT and NO_MAJORITY, and every
sequence of listed events from the initial round stays within the table keys. -/
theorem transition_table_closed :
    (∀ pr ∈ transition_function, ∀ er ∈ pr.2, er.2 ∈ tableKeys) ∧
    (∀ pr ∈ transition_function, pr.2 = [] ↔ pr.1 ∈ final_states) ∧
    (∀ pr ∈ transition_function, pr.1 ∉ final_states →
      (∃ er ∈ pr.2, er.1 = Event.ROUND_TIMEOUT) ∧
      (∃ er ∈ pr.2, er.1 = Event.NO_MAJORITY)) ∧
    (∀ (es : List Event) (r2 : RoundId),
      runEvents initial_round_cls es = some r2 → r2 ∈ tableKeys) := by
  refine ⟨by decide, by decide, by decide, ?_⟩
  intro es r2 h
  exact runEvents_stays_in_keys es initial_round_cls r2 (by decide) h

/-- C9 witness: running the listed event sequences done-enter then done, and
done alone, from the initial round lands on table keys. -/
theorem transition_table_closed_witness :
    RoundId.FinishedEnterPoolTransactionHashRound ∈ tableKeys ∧
    RoundId.SleepRound ∈ tableKeys :=
  ⟨transition_table_closed.2.2.2 [Event.DONE_ENTER, Event.DONE]
      RoundId.FinishedEnterPoolTransactionHashRound (by decide),
   transition_table_closed.2.2.2 [Event.DONE]
      RoundId.SleepRound (by decide)⟩
